import Mathlib

/-
Verification of the osquery-perf agent simulator (agent.go).

The Go source is shallowly embedded: the Agent struct becomes a Lean
structure, the HTTP world (request creation, transport, JSON decoding,
template rendering) becomes an explicit environment record of response
functions, and every operation returns the list of externally visible
effects (template renders, HTTP posts via Client.Do, log lines, sleeps)
it performs, together with the updated agent state where the source
mutates it.
-/

set_option autoImplicit false

namespace OsqueryPerf

/-- Agent mirrors the Go struct Agent (agent.go lines 19-27): server
address, enroll secret, node key, UUID, and the memoized string cache
(the Go field named strings, a map from field name to generated value,
embedded as an association list with the most recent insertion first). -/
structure Agent where
  ServerAddress : String
  EnrollSecret : String
  NodeKey : String
  UUID : String
  strings : List (String × String)

/-- stringVals is the alphabet constant from agent.go line 65. -/
def stringVals : String := "abcdefghijklmnopqrstuvwxyzABCDEFGHIJKLMNOPQRSTUVWXYZ0123456789-_."

/-- pickChar m is the character stringVals[m % len(stringVals)] selected by
one draw of the random generator (agent.go line 71); the Go draw
rand.Int63() is a non-negative integer, embedded as a Nat. -/
def pickChar (m : Nat) : Char :=
  stringVals.data.get ⟨m % stringVals.data.length, Nat.mod_lt m (by decide)⟩

/-- randomString embeds Agent.randomString (agent.go lines 67-74): n
characters, the i-th one picked by the i-th random draw g i. -/
def randomString (g : Nat → Nat) (n : Nat) : String :=
  String.mk ((List.range n).map (fun i => pickChar (g i)))

/-- lookupStr embeds a Go map lookup val, ok := m[key] on the association
list representation of the cache. -/
def lookupStr : List (String × String) → String → Option String
  | [], _ => none
  | (k, v) :: rest, key => if k = key then some v else lookupStr rest key

/-- CachedString embeds Agent.CachedString (agent.go lines 76-83): return
the cached value for key if present, otherwise generate a random string of
length 12, store it under key and return it. The random source g stands
for the global generator draws consumed by this call. -/
def CachedString (g : Nat → Nat) (a : Agent) (key : String) : String × Agent :=
  match lookupStr a.strings key with
  | some v => (v, a)
  | none =>
    let v := randomString g 12
    (v, { a with strings := (key, v) :: a.strings })

theorem pickChar_mem (m : Nat) : pickChar m ∈ stringVals.data :=
  List.get_mem _ _ _

theorem randomString_length (g : Nat → Nat) (n : Nat) :
    (randomString g n).length = n := by
  simp [randomString, String.length]

theorem randomString_alphabet (g : Nat → Nat) (n : Nat) :
    ((randomString g n).data.all (fun c => decide (c ∈ stringVals.data))) = true := by
  simp only [randomString, List.all_eq_true]
  intro c hc
  simp only [List.mem_map] at hc
  obtain ⟨i, _, rfl⟩ := hc
  exact decide_eq_true (pickChar_mem (g i))

/-- If the key is absent the cache stores value pairs untouched apart from
the new entry, so lookups of previously present keys are preserved. -/
theorem lookupStr_cons_ne (cache : List (String × String)) (key k' : String)
    (v : String) (hne : key ≠ k') :
    lookupStr ((key, v) :: cache) k' = lookupStr cache k' := by
  simp [lookupStr, hne]

/-- C5: the field cache lookup is idempotent. The first call for a name
generates a random string of length 12, stores it and returns it; a later
call with the same name (under any randomness) returns the identical
stored value and leaves the agent unchanged; and no call removes or
overwrites an existing key. -/
theorem cachedString_idempotent (g g' : Nat → Nat) (a : Agent) (key : String) :
    (∀ v, lookupStr a.strings key = some v → CachedString g a key = (v, a))
  ∧ (lookupStr a.strings key = none →
      CachedString g a key =
        (randomString g 12, { a with strings := (key, randomString g 12) :: a.strings }))
  ∧ (CachedString g' (CachedString g a key).2 key
      = ((CachedString g a key).1, (CachedString g a key).2))
  ∧ (∀ k' v', lookupStr a.strings k' = some v' →
      lookupStr (CachedString g a key).2.strings k' = some v') := by
  refine ⟨?_, ?_, ?_, ?_⟩
  · intro v hv
    simp [CachedString, hv]
  · intro hnone
    simp [CachedString, hnone]
  · cases hl : lookupStr a.strings key with
    | some v => simp [CachedString, hl]
    | none =>
      simp only [CachedString, hl]
      have : lookupStr ((key, randomString g 12) :: a.strings) key
          = some (randomString g 12) := by
        simp [lookupStr]
      simp [this]
  · intro k' v' hv'
    cases hl : lookupStr a.strings key with
    | some v => simp [CachedString, hl, hv']
    | none =>
      have hne : key ≠ k' := by
        intro he
        rw [he] at hl
        rw [hl] at hv'
        exact Option.noConfusion hv'
      simp only [CachedString, hl]
      rw [lookupStr_cons_ne a.strings key k' (randomString g 12) hne]
      exact hv'

/-- C6: every value generated by the cache on a miss has exactly length 12
and all of its characters belong to the fixed alphabet stringVals. -/
theorem cachedString_value_shape (g : Nat → Nat) (a : Agent) (key : String)
    (h : lookupStr a.strings key = none) :
    (CachedString g a key).1.length = 12
  ∧ ((CachedString g a key).1.data.all (fun c => decide (c ∈ stringVals.data))) = true := by
  have heq : (CachedString g a key).1 = randomString g 12 := by
    simp [CachedString, h]
  rw [heq]
  exact ⟨randomString_length g 12, randomString_alphabet g 12⟩

/-- HttpResponse embeds the parts of a Go http.Response that agent.go
reads: the numeric StatusCode, the display Status string, and the body. -/
structure HttpResponse where
  statusCode : Nat
  status : String
  body : String

/-- RenderOut is the observable result of Templates.ExecuteTemplate: the
bytes written to the buffer (possibly partial on failure), whether the
call returned an error, and the agent field cache after the render (the
template may call CachedString, which only adds cache entries). -/
structure RenderOut where
  out : String
  err : Bool
  cache : List (String × String)

/-- Env is the external world an agent exchange runs against: the
template renderer, whether http.NewRequest fails for a URL, the transport
result of Client.Do per URL and body, and the JSON decoders for the
enroll response (yielding the node_key field) and the distributed read
response (yielding the queries mapping); a decoder returning none models
a json.Decode error. -/
structure Env where
  renderEnroll : Agent → RenderOut
  renderDistributedWrite : Agent → RenderOut
  newRequestErr : String → Option String
  send : String → String → Except String HttpResponse
  decodeEnroll : String → Option String
  decodeRead : String → Option (List (String × String))

/-- Effect records each externally visible action of an operation, in
order: operation entry, a template render, an HTTP post attempt
(Client.Do), a log line, or a sleep of the given number of seconds. -/
inductive Effect where
  | call (name : String)
  | render (name : String)
  | httpPost (url : String) (body : String)
  | logMsg (msg : String)
  | sleep (seconds : Nat)

def enrollURL (a : Agent) : String := a.ServerAddress ++ "/api/v1/osquery/enroll"

def configURL (a : Agent) : String := a.ServerAddress ++ "/api/v1/osquery/config"

def readURL (a : Agent) : String := a.ServerAddress ++ "/api/v1/osquery/distributed/read"

def writeURL (a : Agent) : String := a.ServerAddress ++ "/api/v1/osquery/distributed/write"

/-- nodeKeyBody is the literal request body built by Config and
DistributedRead (agent.go lines 120 and 147): a brace, the quoted field
name node_key, a colon and space, then the current node key pasted
between quotes with no escaping. -/
def nodeKeyBody (a : Agent) : String := "\x7b\"node_key\": \"" ++ a.NodeKey ++ "\"\x7d"

def postsOf (es : List Effect) : List (String × String) :=
  es.filterMap (fun e => match e with | .httpPost u b => some (u, b) | _ => none)

def logsOf (es : List Effect) : List String :=
  es.filterMap (fun e => match e with | .logMsg m => some m | _ => none)

def rendersOf (es : List Effect) : List String :=
  es.filterMap (fun e => match e with | .render n => some n | _ => none)

/-- skel projects a trace to its control skeleton: operation entries on
the left and sleep durations on the right. -/
def skel (es : List Effect) : List (String ⊕ Nat) :=
  es.filterMap (fun e => match e with
    | .call n => some (Sum.inl n)
    | .sleep k => some (Sum.inr k)
    | _ => none)

/-- distributedReadResponse mirrors the Go response struct holding the
queries mapping (agent.go lines 47-49). -/
structure distributedReadResponse where
  queries : List (String × String)

/-- Enroll embeds Agent.Enroll (agent.go lines 85-117). The render error
is discarded exactly as in the source; the request body is whatever the
renderer wrote. NodeKey is assigned only after a created request, a
transport success, status 200 and a successful decode. -/
def Enroll (env : Env) (a : Agent) : Agent × List Effect :=
  let r := env.renderEnroll a
  let a1 : Agent := { a with strings := r.cache }
  match env.newRequestErr (enrollURL a) with
  | some e => (a1, [.call "Enroll", .render "enroll", .logMsg ("create request: " ++ e)])
  | none =>
    match env.send (enrollURL a) r.out with
    | .error e =>
      (a1, [.call "Enroll", .render "enroll", .httpPost (enrollURL a) r.out,
            .logMsg ("do request: " ++ e)])
    | .ok resp =>
      if resp.statusCode = 200 then
        match env.decodeEnroll resp.body with
        | some k =>
          ({ a1 with NodeKey := k },
           [.call "Enroll", .render "enroll", .httpPost (enrollURL a) r.out])
        | none =>
          (a1, [.call "Enroll", .render "enroll", .httpPost (enrollURL a) r.out,
                .logMsg "json parse: decode error"])
      else
        (a1, [.call "Enroll", .render "enroll", .httpPost (enrollURL a) r.out,
              .logMsg ("status: " ++ resp.status)])

/-- Config embeds Agent.Config (agent.go lines 119-144): post the literal
node key body, discard the response body, log failures. It never changes
the agent. -/
def Config (env : Env) (a : Agent) : List Effect :=
  match env.newRequestErr (configURL a) with
  | some e => [.call "Config", .logMsg ("create config request: " ++ e)]
  | none =>
    match env.send (configURL a) (nodeKeyBody a) with
    | .error e =>
      [.call "Config", .httpPost (configURL a) (nodeKeyBody a),
       .logMsg ("do config request: " ++ e)]
    | .ok resp =>
      if resp.statusCode = 200 then
        [.call "Config", .httpPost (configURL a) (nodeKeyBody a)]
      else
        [.call "Config", .httpPost (configURL a) (nodeKeyBody a),
         .logMsg ("config status: " ++ resp.status)]

/-- DistributedRead embeds Agent.DistributedRead (agent.go lines
146-173): post the literal node key body and either return the decoded
queries mapping or a descriptive error, never both. -/
def DistributedRead (env : Env) (a : Agent) :
    Except String distributedReadResponse × List Effect :=
  match env.newRequestErr (readURL a) with
  | some e =>
    (Except.error ("create distributed read request: " ++ e), [.call "DistributedRead"])
  | none =>
    match env.send (readURL a) (nodeKeyBody a) with
    | .error e =>
      (Except.error ("do distributed read request: " ++ e),
       [.call "DistributedRead", .httpPost (readURL a) (nodeKeyBody a)])
    | .ok resp =>
      if resp.statusCode = 200 then
        match env.decodeRead resp.body with
        | some qs =>
          (Except.ok ⟨qs⟩,
           [.call "DistributedRead", .httpPost (readURL a) (nodeKeyBody a)])
        | none =>
          (Except.error "json parse distributed read response: decode error",
           [.call "DistributedRead", .httpPost (readURL a) (nodeKeyBody a)])
      else
        (Except.error ("distributed read status: " ++ resp.status),
         [.call "DistributedRead", .httpPost (readURL a) (nodeKeyBody a)])

/-- DistributedWrite embeds Agent.DistributedWrite (agent.go lines
175-205): if the queries mapping lacks the network interface detail query
it returns immediately with no render, no request and no log; otherwise
it renders the distributed_write template (discarding the render error)
and posts the rendered body once. -/
def DistributedWrite (env : Env) (a : Agent) (queries : List (String × String)) :
    Agent × List Effect :=
  if (lookupStr queries "kolide_detail_query_network_interface").isSome then
    let r := env.renderDistributedWrite a
    let a1 : Agent := { a with strings := r.cache }
    match env.newRequestErr (writeURL a) with
    | some e =>
      (a1, [.call "DistributedWrite", .render "distributed_write",
            .logMsg ("create distributed write request: " ++ e)])
    | none =>
      match env.send (writeURL a) r.out with
      | .error e =>
        (a1, [.call "DistributedWrite", .render "distributed_write",
              .httpPost (writeURL a) r.out,
              .logMsg ("do distributed write request: " ++ e)])
      | .ok resp =>
        if resp.statusCode = 200 then
          (a1, [.call "DistributedWrite", .render "distributed_write",
                .httpPost (writeURL a) r.out])
        else
          (a1, [.call "DistributedWrite", .render "distributed_write",
                .httpPost (writeURL a) r.out,
                .logMsg ("distributed write status: " ++ resp.status)])
  else (a, [.call "DistributedWrite"])

/-- readOutcome is the success projection of a distributed read exchange:
the decoded queries mapping when request creation, transport, the 200
status check and the body decode all succeed, and none otherwise. -/
def readOutcome (env : Env) (a : Agent) : Option (List (String × String)) :=
  match env.newRequestErr (readURL a) with
  | some _ => none
  | none =>
    match env.send (readURL a) (nodeKeyBody a) with
    | .error _ => none
    | .ok resp =>
      if resp.statusCode = 200 then env.decodeRead resp.body else none

/-- enrollOutcome is the success projection of an enroll exchange: the
decoded node_key when every step succeeds, none otherwise. -/
def enrollOutcome (env : Env) (a : Agent) : Option String :=
  match env.newRequestErr (enrollURL a) with
  | some _ => none
  | none =>
    match env.send (enrollURL a) (env.renderEnroll a).out with
    | .error _ => none
    | .ok resp =>
      if resp.statusCode = 200 then env.decodeEnroll resp.body else none

theorem append_ne_empty_left (s t : String) (h : s.length ≠ 0) : s ++ t ≠ "" := by
  intro he
  have hlen : (s ++ t).length = 0 := by rw [he]; rfl
  rw [String.length_append] at hlen
  omega

/-- C2: DistributedRead returns a decoded queries mapping exactly when
request creation, transport, the 200 status and the body decode all
succeed (readOutcome is that success projection); on any failure it
returns an error with a non-empty descriptive message, and the success
projection is empty. -/
theorem distributedRead_result (env : Env) (a : Agent) :
    match (DistributedRead env a).1 with
    | .ok r => readOutcome env a = some r.queries
    | .error e => readOutcome env a = none ∧ e ≠ "" := by
  cases h1 : env.newRequestErr (readURL a) with
  | some e =>
    simp only [DistributedRead, readOutcome, h1]
    exact ⟨trivial, append_ne_empty_left _ _ (by decide)⟩
  | none =>
    cases h2 : env.send (readURL a) (nodeKeyBody a) with
    | error e =>
      simp only [DistributedRead, readOutcome, h1, h2]
      exact ⟨trivial, append_ne_empty_left _ _ (by decide)⟩
    | ok resp =>
      by_cases h3 : resp.statusCode = 200
      · cases h4 : env.decodeRead resp.body with
        | some qs => simp [DistributedRead, readOutcome, h1, h2, h3, h4]
        | none =>
          simp only [DistributedRead, readOutcome, h1, h2, h3, if_true, if_pos, h4]
          exact ⟨trivial, by decide⟩
      · simp only [DistributedRead, readOutcome, h1, h2, if_neg h3]
        exact ⟨trivial, append_ne_empty_left _ _ (by decide)⟩

/-- C3: Enroll stores a node key only on full success. When any step of
the exchange fails (enrollOutcome is none) the stored NodeKey is exactly
the old one; when the exchange succeeds with decoded key k, the agent
NodeKey becomes k. -/
theorem enroll_sessionKey (env : Env) (a : Agent) :
    (enrollOutcome env a = none → ((Enroll env a).1).NodeKey = a.NodeKey)
  ∧ (∀ k, enrollOutcome env a = some k → ((Enroll env a).1).NodeKey = k) := by
  cases h1 : env.newRequestErr (enrollURL a) with
  | some e =>
    constructor
    · intro _; simp [Enroll, h1]
    · intro k hk; simp [enrollOutcome, h1] at hk
  | none =>
    cases h2 : env.send (enrollURL a) (env.renderEnroll a).out with
    | error e =>
      constructor
      · intro _; simp [Enroll, h1, h2]
      · intro k hk; simp [enrollOutcome, h1, h2] at hk
    | ok resp =>
      by_cases h3 : resp.statusCode = 200
      · cases h4 : env.decodeEnroll resp.body with
        | some k =>
          constructor
          · intro hn; exfalso; simp [enrollOutcome, h1, h2, h3, h4] at hn
          · intro k' hk'
            simp [enrollOutcome, h1, h2, h3, h4] at hk'
            simp [Enroll, h1, h2, h3, h4, hk']
        | none =>
          constructor
          · intro _; simp [Enroll, h1, h2, h3, h4]
          · intro k hk; simp [enrollOutcome, h1, h2, h3, h4] at hk
      · constructor
        · intro _; simp [Enroll, h1, h2, h3]
        · intro k hk; simp [enrollOutcome, h1, h2, h3] at hk

/-- C1: DistributedWrite is driven purely by the presence of the network
interface detail query. Without that key it is a complete no-op: the
agent is returned unchanged and the only effect is the entry marker, so
no render, no HTTP call and no log occur. With the key (and a creatable
request) it renders the distributed_write template and posts the rendered
body exactly once, to the distributed write endpoint. -/
theorem distributedWrite_trigger (env : Env) (a : Agent)
    (queries : List (String × String))
    (hreq : env.newRequestErr (writeURL a) = none) :
    (lookupStr queries "kolide_detail_query_network_interface" = none →
      DistributedWrite env a queries = (a, [Effect.call "DistributedWrite"]))
  ∧ (∀ q, lookupStr queries "kolide_detail_query_network_interface" = some q →
      rendersOf (DistributedWrite env a queries).2 = ["distributed_write"]
    ∧ postsOf (DistributedWrite env a queries).2
        = [(writeURL a, (env.renderDistributedWrite a).out)]) := by
  constructor
  · intro hnone
    simp [DistributedWrite, hnone]
  · intro q hq
    have hsome : (lookupStr queries "kolide_detail_query_network_interface").isSome = true := by
      rw [hq]; rfl
    cases h2 : env.send (writeURL a) (env.renderDistributedWrite a).out with
    | error e =>
      simp [DistributedWrite, hsome, hreq, h2, rendersOf, postsOf]
    | ok resp =>
      by_cases h3 : resp.statusCode = 200
      · simp [DistributedWrite, hsome, hreq, h2, h3, rendersOf, postsOf]
      · simp [DistributedWrite, hsome, hreq, h2, h3, rendersOf, postsOf]

/-- setEnrollRenderErr replaces only the error flag reported by the
enroll template render, leaving the rendered bytes and cache untouched. -/
def setEnrollRenderErr (env : Env) (b : Bool) : Env :=
  { env with renderEnroll := fun a => { env.renderEnroll a with err := b } }

/-- setWriteRenderErr replaces only the error flag reported by the
distributed_write template render. -/
def setWriteRenderErr (env : Env) (b : Bool) : Env :=
  { env with renderDistributedWrite := fun a => { env.renderDistributedWrite a with err := b } }

/-- C8 (amended): a template render failure is silently ignored and
non-fatal. Enroll and DistributedWrite behave identically whatever the
render error flag says, and with a creatable request Enroll still posts
exactly the (possibly partial) rendered body. -/
theorem renderFailure_ignored (env : Env) (a : Agent)
    (queries : List (String × String)) (b1 b2 : Bool)
    (hreq : env.newRequestErr (enrollURL a) = none) :
    Enroll (setEnrollRenderErr env b1) a = Enroll env a
  ∧ DistributedWrite (setWriteRenderErr env b2) a queries = DistributedWrite env a queries
  ∧ postsOf (Enroll env a).2 = [(enrollURL a, (env.renderEnroll a).out)] := by
  refine ⟨rfl, rfl, ?_⟩
  cases h2 : env.send (enrollURL a) (env.renderEnroll a).out with
  | error e => simp [Enroll, hreq, h2, postsOf]
  | ok resp =>
    by_cases h3 : resp.statusCode = 200
    · cases h4 : env.decodeEnroll resp.body with
      | some k => simp [Enroll, hreq, h2, h3, h4, postsOf]
      | none => simp [Enroll, hreq, h2, h3, h4, postsOf]
    · simp [Enroll, hreq, h2, h3, postsOf]

/-- agent0 is a concrete enrolled agent used by the witnesses. -/
def agent0 : Agent :=
  { ServerAddress := "https://localhost:8080", EnrollSecret := "secret",
    NodeKey := "k1", UUID := "u1", strings := [] }

/-- env0 is a fully successful concrete environment: requests are always
creatable, every exchange returns status 200, the enroll body decodes to
the node key abc123, and the read body decodes to a queries mapping
containing the network interface detail query. -/
def env0 : Env :=
  { renderEnroll := fun a => { out := "enrollbody", err := false, cache := a.strings },
    renderDistributedWrite := fun a => { out := "dwbody", err := false, cache := a.strings },
    newRequestErr := fun _ => none,
    send := fun _ _ => Except.ok { statusCode := 200, status := "200 OK", body := "respbody" },
    decodeEnroll := fun _ => some "abc123",
    decodeRead := fun _ => some [("kolide_detail_query_network_interface", "select 1")] }

/-- env500 is env0 with the transport answering status 500 everywhere. -/
def env500 : Env :=
  { env0 with send := fun _ _ =>
      Except.ok { statusCode := 500, status := "500 Internal Server Error", body := "" } }

/-- envRenderFail is env0 with the enroll template render reporting an
error after writing only a partial body. -/
def envRenderFail : Env :=
  { env0 with renderEnroll := fun a => { out := "partial", err := true, cache := a.strings } }

theorem distributedWrite_trigger_witness :
    env0.newRequestErr (writeURL agent0) = none
  ∧ DistributedWrite env0 agent0 [("some_other_query", "select 2")]
      = (agent0, [Effect.call "DistributedWrite"])
  ∧ postsOf (DistributedWrite env0 agent0
        [("kolide_detail_query_network_interface", "select 1")]).2
      = [(writeURL agent0, "dwbody")] :=
  ⟨rfl,
   (distributedWrite_trigger env0 agent0 [("some_other_query", "select 2")] rfl).1 rfl,
   ((distributedWrite_trigger env0 agent0
       [("kolide_detail_query_network_interface", "select 1")] rfl).2 "select 1" rfl).2⟩

theorem distributedRead_result_witness :
    readOutcome env0 agent0 = some [("kolide_detail_query_network_interface", "select 1")] :=
  distributedRead_result env0 agent0

theorem enroll_sessionKey_witness :
    enrollOutcome env0 agent0 = some "abc123"
  ∧ ((Enroll env0 agent0).1).NodeKey = "abc123"
  ∧ enrollOutcome env500 agent0 = none
  ∧ ((Enroll env500 agent0).1).NodeKey = "k1" :=
  ⟨rfl, (enroll_sessionKey env0 agent0).2 "abc123" rfl, rfl,
   (enroll_sessionKey env500 agent0).1 rfl⟩

theorem cachedString_idempotent_witness :
    lookupStr agent0.strings "hostname" = none
  ∧ CachedString (fun i => i) agent0 "hostname"
      = (randomString (fun i => i) 12,
         { agent0 with strings := [("hostname", randomString (fun i => i) 12)] })
  ∧ CachedString (fun i => i + 7) (CachedString (fun i => i) agent0 "hostname").2 "hostname"
      = ((CachedString (fun i => i) agent0 "hostname").1,
         (CachedString (fun i => i) agent0 "hostname").2) :=
  ⟨rfl,
   (cachedString_idempotent (fun i => i) (fun i => i + 7) agent0 "hostname").2.1 rfl,
   (cachedString_idempotent (fun i => i) (fun i => i + 7) agent0 "hostname").2.2.1⟩

theorem cachedString_value_shape_witness :
    lookupStr agent0.strings "hostname" = none
  ∧ ((CachedString (fun i => i) agent0 "hostname").1.length = 12
  ∧ ((CachedString (fun i => i) agent0 "hostname").1.data.all
        (fun c => decide (c ∈ stringVals.data))) = true) :=
  ⟨rfl, cachedString_value_shape (fun i => i) agent0 "hostname" rfl⟩

/-- C8 (counterexample): with a failing enroll template render and an
otherwise successful exchange, the claim that the render failure is
logged is false: the trace of Enroll contains no log line at all, yet the
request is sent with the partial body, so the failure leaves no logged
trace anywhere. -/
theorem renderFailure_unlogged_cex :
    (envRenderFail.renderEnroll agent0).err = true
  ∧ logsOf (Enroll envRenderFail agent0).2 = []
  ∧ postsOf (Enroll envRenderFail agent0).2 = [(enrollURL agent0, "partial")] :=
  ⟨rfl, rfl, rfl⟩

theorem renderFailure_ignored_witness :
    env0.newRequestErr (enrollURL agent0) = none
  ∧ Enroll (setEnrollRenderErr env0 true) agent0 = Enroll env0 agent0
  ∧ postsOf (Enroll env0 agent0).2 = [(enrollURL agent0, "enrollbody")] :=
  ⟨rfl, (renderFailure_ignored env0 agent0 [] true false rfl).1,
   (renderFailure_ignored env0 agent0 [] true false rfl).2.2⟩

/-- hexVal decodes one hexadecimal digit, as allowed in a JSON \u escape. -/
def hexVal (c : Char) : Option Nat :=
  if '0' ≤ c ∧ c ≤ '9' then some (c.toNat - 48)
  else if 'a' ≤ c ∧ c ≤ 'f' then some (c.toNat - 87)
  else if 'A' ≤ c ∧ c ≤ 'F' then some (c.toNat - 55)
  else none

/-- escChar decodes the character following a backslash in a JSON string,
for the single-character escapes of the JSON grammar. -/
def escChar (c : Char) : Option Char :=
  if c = '"' then some '"'
  else if c = '\\' then some '\\'
  else if c = '/' then some '/'
  else if c = 'b' then some (Char.ofNat 8)
  else if c = 'f' then some (Char.ofNat 12)
  else if c = 'n' then some (Char.ofNat 10)
  else if c = 'r' then some (Char.ofNat 13)
  else if c = 't' then some (Char.ofNat 9)
  else none

/-- parseJsonStringChars consumes the remainder of a JSON string literal
(the opening quote already consumed) per the JSON grammar: it stops at an
unescaped quote, decodes backslash escapes including \uXXXX, rejects raw
control characters, and returns the decoded characters with the input
left after the closing quote. -/
def parseJsonStringChars : List Char → Option (List Char × List Char)
  | [] => none
  | c :: rest =>
    if c = '"' then some ([], rest)
    else if c = '\\' then
      match rest with
      | [] => none
      | e :: rest2 =>
        if e = 'u' then
          match rest2 with
          | h1 :: h2 :: h3 :: h4 :: rest3 =>
            match hexVal h1, hexVal h2, hexVal h3, hexVal h4 with
            | some d1, some d2, some d3, some d4 =>
              match parseJsonStringChars rest3 with
              | some (s, r) => some (Char.ofNat (((d1 * 16 + d2) * 16 + d3) * 16 + d4) :: s, r)
              | none => none
            | _, _, _, _ => none
          | _ => none
        else
          match escChar e with
          | some d =>
            match parseJsonStringChars rest2 with
            | some (s, r) => some (d :: s, r)
            | none => none
          | none => none
    else if c.toNat < 32 then none
    else
      match parseJsonStringChars rest with
      | some (s, r) => some (c :: s, r)
      | none => none
termination_by structural l => l

/-- dropPrefixChars strips an expected literal character sequence from the
front of the input, failing when the input deviates from it. -/
def dropPrefixChars : List Char → List Char → Option (List Char)
  | [], rest => some rest
  | _ :: _, [] => none
  | p :: ps, c :: cs => if c = p then dropPrefixChars ps cs else none

/-- parseNodeKeyObj checks well-formedness, per the JSON grammar, of a
body shaped like the ones Config and DistributedRead send: the exact
literal open brace, quoted node_key field name, colon, space and opening
quote, then a JSON string literal, then the closing brace ending the
input. It returns the decoded string value of the node_key field, or none
when the body is not such a well-formed JSON object. -/
def parseNodeKeyObj (s : String) : Option String :=
  match dropPrefixChars "\x7b\"node_key\": \"".data s.data with
  | none => none
  | some rest =>
    match parseJsonStringChars rest with
    | none => none
    | some (content, remaining) =>
      if remaining = ['\x7d'] then some (String.mk content) else none

/-- goodKeyChar holds for characters that a JSON string literal may
contain verbatim without any escaping. -/
def goodKeyChar (c : Char) : Bool :=
  !(c = '"' : Bool) && !(c = '\\' : Bool) && decide (32 ≤ c.toNat)

def goodKey (s : String) : Bool := s.data.all goodKeyChar

theorem dropPrefixChars_append (ps rest : List Char) :
    dropPrefixChars ps (ps ++ rest) = some rest := by
  induction ps with
  | nil => rfl
  | cons p ps ih => simp [dropPrefixChars, ih]

theorem parseJsonStringChars_verbatim (key : List Char)
    (h : ∀ c ∈ key, goodKeyChar c = true) (tail : List Char) :
    parseJsonStringChars (key ++ '"' :: tail) = some (key, tail) := by
  induction key with
  | nil =>
    rw [List.nil_append, parseJsonStringChars.eq_def]
    simp
  | cons c key ih =>
    have hc := h c (List.mem_cons_self c key)
    simp only [goodKeyChar, Bool.and_eq_true, Bool.not_eq_true', decide_eq_true_eq,
      decide_eq_false_iff_not] at hc
    obtain ⟨⟨hq, hb⟩, hctl⟩ := hc
    have hrec := ih (fun d hd => h d (List.mem_cons_of_mem c hd))
    have hnc : ¬ c.toNat < 32 := by omega
    rw [List.cons_append, parseJsonStringChars.eq_def]
    simp [hq, hb, hnc, hrec]

/-- C7 (amended): the body sent by Config and by DistributedRead is
always the literal concatenation nodeKeyBody; whenever the current node
key contains no double quote, no backslash and no control character, that
body is a well-formed JSON object whose sole node_key field decodes back
to exactly the current node key. -/
theorem nodeKeyBody_json (env : Env) (a : Agent)
    (hc : env.newRequestErr (configURL a) = none)
    (hr : env.newRequestErr (readURL a) = none)
    (hgood : goodKey a.NodeKey = true) :
    postsOf (Config env a) = [(configURL a, nodeKeyBody a)]
  ∧ postsOf (DistributedRead env a).2 = [(readURL a, nodeKeyBody a)]
  ∧ parseNodeKeyObj (nodeKeyBody a) = some a.NodeKey := by
  refine ⟨?_, ?_, ?_⟩
  · cases h2 : env.send (configURL a) (nodeKeyBody a) with
    | error e => simp [Config, hc, h2, postsOf]
    | ok resp =>
      by_cases h3 : resp.statusCode = 200
      · simp [Config, hc, h2, h3, postsOf]
      · simp [Config, hc, h2, h3, postsOf]
  · cases h2 : env.send (readURL a) (nodeKeyBody a) with
    | error e => simp [DistributedRead, hr, h2, postsOf]
    | ok resp =>
      by_cases h3 : resp.statusCode = 200
      · cases h4 : env.decodeRead resp.body with
        | some qs => simp [DistributedRead, hr, h2, h3, h4, postsOf]
        | none => simp [DistributedRead, hr, h2, h3, h4, postsOf]
      · simp [DistributedRead, hr, h2, h3, postsOf]
  · have hdata : (nodeKeyBody a).data
        = "\x7b\"node_key\": \"".data ++ (a.NodeKey.data ++ '"' :: ['\x7d']) := by
      simp [nodeKeyBody, String.data_append]
    have hall : ∀ c ∈ a.NodeKey.data, goodKeyChar c = true := by
      intro c hcmem
      exact List.all_eq_true.mp hgood c hcmem
    have hp1 : dropPrefixChars "\x7b\"node_key\": \"".data (nodeKeyBody a).data
        = some (a.NodeKey.data ++ '"' :: ['\x7d']) := by
      rw [hdata]; exact dropPrefixChars_append _ _
    have hp2 : parseJsonStringChars (a.NodeKey.data ++ '"' :: ['\x7d'])
        = some (a.NodeKey.data, ['\x7d']) :=
      parseJsonStringChars_verbatim a.NodeKey.data hall ['\x7d']
    simp [parseNodeKeyObj, hp1, hp2]

/-- badAgent is agent0 with a node key consisting of a single double
quote, a value the enroll decoder could legitimately hand back. -/
def badAgent : Agent := { agent0 with NodeKey := "\"" }

/-- C7 (counterexample): for the node key consisting of one double quote,
Config still posts the literal body, but that body fails to parse as a
JSON object with a node_key field: the claim that the body is well-formed
JSON with the key as its sole field for every session key value is false. -/
theorem nodeKeyBody_not_json_cex :
    badAgent.NodeKey = "\""
  ∧ postsOf (Config env0 badAgent) = [(configURL badAgent, nodeKeyBody badAgent)]
  ∧ parseNodeKeyObj (nodeKeyBody badAgent) = none :=
  ⟨rfl, rfl, rfl⟩

theorem nodeKeyBody_json_witness :
    goodKey agent0.NodeKey = true
  ∧ postsOf (Config env0 agent0) = [(configURL agent0, nodeKeyBody agent0)]
  ∧ parseNodeKeyObj (nodeKeyBody agent0) = some agent0.NodeKey :=
  ⟨rfl, (nodeKeyBody_json env0 agent0 rfl rfl rfl).1,
   (nodeKeyBody_json env0 agent0 rfl rfl rfl).2.2⟩

/-- cycle is one iteration of the infinite for loop in Agent.runLoop
(agent.go lines 53-62): Config, then DistributedRead, then on a read
error log it and skip the write, otherwise DistributedWrite with the
returned queries; finally sleep 10 seconds. The per-cycle environment env
stands for the world during that iteration. -/
def cycle (env : Env) (a : Agent) : Agent × List Effect :=
  match (DistributedRead env a).1 with
  | .error e =>
    (a, Config env a ++ (DistributedRead env a).2 ++ [.logMsg e, .sleep 10])
  | .ok r =>
    ((DistributedWrite env a r.queries).1,
     Config env a ++ (DistributedRead env a).2
       ++ (DistributedWrite env a r.queries).2 ++ [.sleep 10])

/-- agentAt is the agent state after Enroll and n full cycles, with the
world of cycle i given by cenvs i. -/
def agentAt (eenv : Env) (cenvs : Nat → Env) (a : Agent) : Nat → Agent
  | 0 => (Enroll eenv a).1
  | n + 1 => (cycle (cenvs n) (agentAt eenv cenvs a n)).1

/-- runLoopTrace embeds Agent.runLoop (agent.go lines 51-63) observed for
n cycles: the single initial Enroll followed by the effects of cycles
0 .. n-1. The loop itself never exits, so every finite observation has
this shape. -/
def runLoopTrace (eenv : Env) (cenvs : Nat → Env) (a : Agent) : Nat → List Effect
  | 0 => (Enroll eenv a).2
  | n + 1 =>
    runLoopTrace eenv cenvs a n ++ (cycle (cenvs n) (agentAt eenv cenvs a n)).2

def isOkB (r : Except String distributedReadResponse) : Bool :=
  match r with
  | .ok _ => true
  | .error _ => false

/-- readOkAt says whether the distributed read of cycle i succeeds. -/
def readOkAt (eenv : Env) (cenvs : Nat → Env) (a : Agent) (i : Nat) : Bool :=
  isOkB (DistributedRead (cenvs i) (agentAt eenv cenvs a i)).1

theorem skel_append (es fs : List Effect) : skel (es ++ fs) = skel es ++ skel fs :=
  List.filterMap_append es fs _

theorem skel_enroll (env : Env) (a : Agent) :
    skel (Enroll env a).2 = [Sum.inl "Enroll"] := by
  cases h1 : env.newRequestErr (enrollURL a) with
  | some e => simp [Enroll, h1, skel]
  | none =>
    cases h2 : env.send (enrollURL a) (env.renderEnroll a).out with
    | error e => simp [Enroll, h1, h2, skel]
    | ok resp =>
      by_cases h3 : resp.statusCode = 200
      · cases h4 : env.decodeEnroll resp.body with
        | some k => simp [Enroll, h1, h2, h3, h4, skel]
        | none => simp [Enroll, h1, h2, h3, h4, skel]
      · simp [Enroll, h1, h2, h3, skel]

theorem skel_config (env : Env) (a : Agent) :
    skel (Config env a) = [Sum.inl "Config"] := by
  cases h1 : env.newRequestErr (configURL a) with
  | some e => simp [Config, h1, skel]
  | none =>
    cases h2 : env.send (configURL a) (nodeKeyBody a) with
    | error e => simp [Config, h1, h2, skel]
    | ok resp =>
      by_cases h3 : resp.statusCode = 200
      · simp [Config, h1, h2, h3, skel]
      · simp [Config, h1, h2, h3, skel]

theorem skel_distributedRead (env : Env) (a : Agent) :
    skel (DistributedRead env a).2 = [Sum.inl "DistributedRead"] := by
  cases h1 : env.newRequestErr (readURL a) with
  | some e => simp [DistributedRead, h1, skel]
  | none =>
    cases h2 : env.send (readURL a) (nodeKeyBody a) with
    | error e => simp [DistributedRead, h1, h2, skel]
    | ok resp =>
      by_cases h3 : resp.statusCode = 200
      · cases h4 : env.decodeRead resp.body with
        | some qs => simp [DistributedRead, h1, h2, h3, h4, skel]
        | none => simp [DistributedRead, h1, h2, h3, h4, skel]
      · simp [DistributedRead, h1, h2, h3, skel]

theorem skel_distributedWrite (env : Env) (a : Agent)
    (queries : List (String × String)) :
    skel (DistributedWrite env a queries).2 = [Sum.inl "DistributedWrite"] := by
  by_cases h0 : (lookupStr queries "kolide_detail_query_network_interface").isSome
  · cases h1 : env.newRequestErr (writeURL a) with
    | some e => simp [DistributedWrite, h0, h1, skel]
    | none =>
      cases h2 : env.send (writeURL a) (env.renderDistributedWrite a).out with
      | error e => simp [DistributedWrite, h0, h1, h2, skel]
      | ok resp =>
        by_cases h3 : resp.statusCode = 200
        · simp [DistributedWrite, h0, h1, h2, h3, skel]
        · simp [DistributedWrite, h0, h1, h2, h3, skel]
  · simp [DistributedWrite, h0, skel]

theorem skel_cycle (env : Env) (a : Agent) :
    skel (cycle env a).2
      = [Sum.inl "Config", Sum.inl "DistributedRead"]
        ++ (if isOkB (DistributedRead env a).1 then [Sum.inl "DistributedWrite"] else [])
        ++ [Sum.inr 10] := by
  cases hr : (DistributedRead env a).1 with
  | error e =>
    simp only [cycle, hr, skel_append, skel_config, skel_distributedRead, isOkB]
    simp [skel]
  | ok r =>
    simp only [cycle, hr, skel_append, skel_config, skel_distributedRead,
      skel_distributedWrite, isOkB]
    simp [skel]

/-- C4: the control skeleton of the run loop observed for any number of
cycles n, in any per-cycle environments: exactly one Enroll entry, first;
then for each cycle i in order a Config entry, a DistributedRead entry, a
DistributedWrite entry exactly when the read of that cycle succeeded, and
a 10 second sleep closing the cycle; and every n-cycle observation
extends to an n+1-cycle one, so the loop never terminates. -/
theorem runLoop_shape (eenv : Env) (cenvs : Nat → Env) (a : Agent) (n : Nat) :
    skel (runLoopTrace eenv cenvs a n)
      = Sum.inl "Enroll" ::
          (List.range n).flatMap (fun i =>
            [Sum.inl "Config", Sum.inl "DistributedRead"]
              ++ (if readOkAt eenv cenvs a i then [Sum.inl "DistributedWrite"] else [])
              ++ [Sum.inr 10])
  ∧ ∃ es, runLoopTrace eenv cenvs a (n + 1) = runLoopTrace eenv cenvs a n ++ es := by
  constructor
  · induction n with
    | zero => simp [runLoopTrace, skel_enroll]
    | succ n ih =>
      rw [runLoopTrace, skel_append, ih, List.range_succ]
      simp [skel_cycle, readOkAt, List.flatMap_append]
  · exact ⟨(cycle (cenvs n) (agentAt eenv cenvs a n)).2, rfl⟩

theorem runLoop_shape_witness :
    skel (runLoopTrace env0 (fun _ => env0) agent0 1)
      = [Sum.inl "Enroll", Sum.inl "Config", Sum.inl "DistributedRead",
         Sum.inl "DistributedWrite", Sum.inr 10] := by
  have h := (runLoop_shape env0 (fun _ => env0) agent0 1).1
  simpa using h

/-- LauncherEvent is one observable action of the main fleet launcher:
constructing agent i, starting the run loop of agent i in a goroutine, or
sleeping the per-agent delay of d nanoseconds. -/
inductive LauncherEvent where
  | create (i : Nat)
  | start (i : Nat)
  | sleepFor (d : Int)

/-- LauncherState carries the loop counter of the launcher for loop, the
cumulative nanoseconds slept so far (a lower bound on elapsed time at
that point, since every other action only adds time), and the ordered
event log, each event paired with the cumulative sleep time at which the
launcher reaches it. -/
structure LauncherState where
  nextIndex : Nat
  clock : Int
  events : List (LauncherEvent × Int)

/-- launchStep is one iteration of the launcher for loop (agent.go lines
225-230): create the next agent, start its run loop, then sleep d. -/
def launchStep (d : Int) (s : LauncherState) : LauncherState :=
  { nextIndex := s.nextIndex + 1,
    clock := s.clock + d,
    events := s.events
      ++ [(.create s.nextIndex, s.clock), (.start s.nextIndex, s.clock),
          (.sleepFor d, s.clock)] }

def launchIter (d : Int) : Nat → LauncherState
  | 0 => { nextIndex := 0, clock := 0, events := [] }
  | n + 1 => launchStep d (launchIter d n)

/-- goDurationDiv is Go integer division on the int64 Duration type:
truncated division, and a division by zero is a runtime panic, embedded
as none. -/
def goDurationDiv (num den : Int) : Option Int :=
  if den = 0 then none else some (Int.tdiv num den)

/-- tenSecondsNanos is 10 * time.Second in nanoseconds. -/
def tenSecondsNanos : Int := 10 * 1000000000

/-- mainLauncher embeds main (agent.go lines 222-230): first the sleep
time computation (10 seconds divided by the host count, before any agent
is created; on division by zero the program panics here, so no launcher
state at all is produced), then the sequential create/start/sleep loop
running hostCount times (zero times when hostCount is negative, as the Go
for loop guard fails immediately). -/
def mainLauncher (hostCount : Int) : Option LauncherState :=
  match goDurationDiv tenSecondsNanos hostCount with
  | none => none
  | some d => some (launchIter d hostCount.toNat)

theorem launchIter_spec (d : Int) (n : Nat) :
    (launchIter d n).nextIndex = n
  ∧ (launchIter d n).clock = n * d
  ∧ (launchIter d n).events
      = (List.range n).flatMap (fun i =>
          [(.create i, (i : Int) * d), (.start i, (i : Int) * d),
           (.sleepFor d, (i : Int) * d)]) := by
  induction n with
  | zero => exact ⟨rfl, by simp [launchIter], by simp [launchIter]⟩
  | succ n ih =>
    obtain ⟨hi, hc, he⟩ := ih
    refine ⟨?_, ?_, ?_⟩
    · simp [launchIter, launchStep, hi]
    · simp only [launchIter, launchStep, hc]
      push_cast
      ring
    · simp only [launchIter, launchStep, hi, hc, he, List.range_succ,
        List.flatMap_append]
      simp

/-- C9: for every host count N at least 1, the launcher computes the
per-agent delay as the 10 second window divided (Go integer division) by
N, and its event log is the N sequential iterations, each creating agent
i, starting its run loop and then sleeping the delay, with the cumulative
sleep before agent i starting equal to i times the delay: agent i starts
no earlier than i * (window / N) after launcher start. -/
theorem launcher_stagger (n : Nat) (h : 1 ≤ n) :
    goDurationDiv tenSecondsNanos (n : Int) = some (Int.tdiv tenSecondsNanos (n : Int))
  ∧ mainLauncher (n : Int) = some (launchIter (Int.tdiv tenSecondsNanos (n : Int)) n)
  ∧ (launchIter (Int.tdiv tenSecondsNanos (n : Int)) n).events
      = (List.range n).flatMap (fun i =>
          [(.create i, (i : Int) * Int.tdiv tenSecondsNanos (n : Int)),
           (.start i, (i : Int) * Int.tdiv tenSecondsNanos (n : Int)),
           (.sleepFor (Int.tdiv tenSecondsNanos (n : Int)),
            (i : Int) * Int.tdiv tenSecondsNanos (n : Int))]) := by
  have hne : (n : Int) ≠ 0 := by
    exact_mod_cast Nat.pos_iff_ne_zero.mp h
  have hdiv : goDurationDiv tenSecondsNanos (n : Int)
      = some (Int.tdiv tenSecondsNanos (n : Int)) := by
    simp [goDurationDiv, hne]
  refine ⟨hdiv, ?_, (launchIter_spec _ n).2.2⟩
  simp [mainLauncher, hdiv]

theorem launcher_stagger_witness :
    1 ≤ 5
  ∧ goDurationDiv tenSecondsNanos ((5 : Nat) : Int) = some 2000000000
  ∧ mainLauncher ((5 : Nat) : Int)
      = some (launchIter (Int.tdiv tenSecondsNanos ((5 : Nat) : Int)) 5) :=
  ⟨by decide, (launcher_stagger 5 (by decide)).1, (launcher_stagger 5 (by decide)).2.1⟩

/-- C10: the sleep time division has no zero guard. For host count 0 the
launcher panics on the division by zero before creating any agent
(mainLauncher 0 yields no state at all), while for every host count at
least 1 the division is defined and the resulting delay is non-negative. -/
theorem launcher_div_zero (n : Nat) (h : 1 ≤ n) :
    mainLauncher 0 = none
  ∧ goDurationDiv tenSecondsNanos (n : Int) = some (Int.tdiv tenSecondsNanos (n : Int))
  ∧ 0 ≤ Int.tdiv tenSecondsNanos (n : Int) := by
  have hne : (n : Int) ≠ 0 := by
    exact_mod_cast Nat.pos_iff_ne_zero.mp h
  refine ⟨rfl, by simp [goDurationDiv, hne], ?_⟩
  exact Int.tdiv_nonneg (by decide) (by positivity)

theorem launcher_div_zero_witness :
    1 ≤ 3
  ∧ (mainLauncher 0 = none
  ∧ goDurationDiv tenSecondsNanos ((3 : Nat) : Int) = some (Int.tdiv tenSecondsNanos ((3 : Nat) : Int))
  ∧ 0 ≤ Int.tdiv tenSecondsNanos ((3 : Nat) : Int)) :=
  ⟨by decide, launcher_div_zero 3 (by decide)⟩

end OsqueryPerf
